import Mathlib

/-!
Verification of the rmbg-service asynchronous job pipeline.

This file shallowly embeds the parts of the repository that the verified
properties are about:

* the Celery worker task (src/worker/tasks/remove_bg.py),
* the callback client (src/utils/callbacks.py),
* the status-query route (src/api/routes.py),
* the local worker-pool launcher (src/run_local.py) together with the
  device binding of src/worker/models/bg_removal.py.

The embedding is parameterised over the observable behaviour of the
external collaborators (clock readings, the opaque model inference, the
S3 upload, the HTTP response of the callback endpoint), which the task
treats as oracles.  The Celery result backend is modelled at its
interface boundary as a key-value store receiving an ordered sequence
of writes: the repository configures task_track_started
(src/config/settings.py line 23), so the backend records a STARTED
state when a worker begins executing the task body, before any task
code runs; an explicit update_state records its state and meta; a value
returned from the task body is recorded as SUCCESS with the result
dictionary; an exception escaping the task body is recorded as FAILURE
with the exception as the result (which supersedes any meta written
earlier by update_state).

Python timestamps are modelled as rationals; the n-th call of
time.time() inside one task execution returns clock n.
-/

/-- Job status enum of src/api/schemas.py (TaskStatus). -/
inductive JobStatus
  | pending
  | processing
  | completed
  | failed
deriving DecidableEq, Repr

/-- Celery task states observable through the result backend. -/
inductive CeleryState
  | PENDING
  | STARTED
  | SUCCESS
  | FAILURE
  | REVOKED
deriving DecidableEq, Repr

/-- Fields of the meta / result dictionaries the task stores.  A field
holding none models the key being absent from the Python dict. -/
structure TaskMeta where
  status : Option String := none
  result_url : Option String := none
  original_filename : Option String := none
  output_filename : Option String := none
  processing_time : Option ℚ := none
  model_time : Option ℚ := none
  queue_time : Option ℚ := none
  error : Option String := none
deriving DecidableEq, Repr

/-- The result value held by the backend for a task: either a meta /
result dictionary or a recorded exception (its message string). -/
inductive StoreVal
  | dict (m : TaskMeta)
  | exc (msg : String)
deriving DecidableEq, Repr

/-- Round half to even on rationals, as Python rounds to the integer grid. -/
def pyRoundInt (q : ℚ) : ℤ :=
  let f : ℤ := ⌊q⌋
  let r : ℚ := q - f
  if r < 1/2 then f
  else if 1/2 < r then f + 1
  else if f % 2 = 0 then f else f + 1

/-- Python round(x, 3), used for all the timing fields of the task. -/
def pyRound3 (q : ℚ) : ℚ := (pyRoundInt (1000 * q) : ℚ) / 1000

/-- Python int() truncation toward zero, used for the filename timestamp. -/
def pyTrunc (q : ℚ) : ℤ := if 0 ≤ q then ⌊q⌋ else -⌊-q⌋

/-- Index of the last occurrence of a character, counting from a given
start index (helper for the os.path.splitext model). -/
def lastIndexOfFrom (t : Char) : List Char → ℕ → Option ℕ
  | [], _ => none
  | c :: rest, i =>
    match lastIndexOfFrom t rest (i + 1) with
    | some j => some j
    | none => if c = t then some i else none

/-- Index of the last occurrence of a character in a character list. -/
def lastIndexOf (t : Char) (cs : List Char) : Option ℕ := lastIndexOfFrom t cs 0

/-- Root part of os.path.splitext: splits at the last dot of the final
path component unless every character of the component before that dot
is itself a dot (the CPython genericpath behaviour). -/
def splitextRoot (s : String) : String :=
  let cs := s.toList
  let fnIdx : ℕ :=
    match lastIndexOf '/' cs with
    | some j => j + 1
    | none => 0
  match lastIndexOf '.' cs with
  | none => s
  | some si =>
    if fnIdx < si && ((cs.drop fnIdx).take (si - fnIdx)).any (fun c => c ≠ '.') then
      String.mk (cs.take si)
    else s

/-- os.path.basename: the part of the path after the last slash. -/
def osBasename (s : String) : String := (s.splitOn "/").getLastD s

/-- os.path.join for the two-argument uses in the repository. -/
def osPathJoin (a b : String) : String :=
  if b.startsWith "/" then b
  else if a = "" then b
  else if a.endsWith "/" then a ++ b
  else a ++ "/" ++ b

/-- Keyword parameters accepted by the signature of
CallbackClient.send_callback (src/utils/callbacks.py line 16). -/
def sendCallbackParams : List String := ["task_id", "status", "result_url", "error"]

/-- Keys of the callback_data dictionary built by the submission route
(src/api/routes.py lines 97-101); these keys are splatted into every
send_callback call of the worker task. -/
def callbackDataKeys : List String := ["callback_url", "callback_auth", "custom_data"]

/-- Keyword arguments of the processing-status callback call
(src/worker/tasks/remove_bg.py lines 45-49). -/
def processingCallKwargs : List String := ["task_id", "status"] ++ callbackDataKeys

/-- Keyword arguments of the completed callback call
(src/worker/tasks/remove_bg.py lines 110-118). -/
def completedCallKwargs : List String :=
  ["task_id", "status", "result_url", "processing_time", "model_time", "queue_time"]
    ++ callbackDataKeys

/-- Keyword arguments of the failed callback call
(src/worker/tasks/remove_bg.py lines 132-139). -/
def failedCallKwargs : List String :=
  ["task_id", "status", "error", "processing_time", "queue_time"] ++ callbackDataKeys

/-- Python keyword-argument binding for a function without a kwargs
catch-all: the call binds iff every passed keyword names a declared
parameter; otherwise the call raises TypeError before the body runs. -/
def kwargsBindOk (passed accepted : List String) : Bool :=
  passed.all (fun k => accepted.contains k)

/-- Message of the TypeError raised by the processing callback call. -/
def typeErrorProcessingMsg : String :=
  "send_callback() got an unexpected keyword argument callback_url"

/-- Message of the TypeError raised by the completed callback call. -/
def typeErrorCompletedMsg : String :=
  "send_callback() got an unexpected keyword argument processing_time"

/-- Message of the TypeError raised by the failed callback call. -/
def typeErrorFailedMsg : String :=
  "send_callback() got an unexpected keyword argument processing_time"

/-- Outcome of the single HTTP POST of send_callback: a response with a
status code, or a requests.RequestException. -/
inductive HttpResult
  | resp (status_code : ℕ)
  | exc
deriving DecidableEq, Repr

/-- requests Response.ok: true iff the status code is below 400. -/
def responseOk (code : ℕ) : Bool := code < 400

/-- Configuration fields read by CallbackClient.__init__
(src/utils/callbacks.py lines 10-14). -/
structure CallbackCfg where
  enabled : Bool
  callback_url : String
  auth_token : String
deriving DecidableEq, Repr

/-- Body of CallbackClient.send_callback (src/utils/callbacks.py lines
29-74), for a call whose keyword arguments bind.  Returns the boolean
result together with the number of HTTP POSTs attempted. -/
def send_callback (cfg : CallbackCfg) (net : HttpResult) : Bool × ℕ :=
  if !cfg.enabled || cfg.callback_url = "" then (false, 0)
  else
    match net with
    | HttpResult.resp code => (responseOk code, 1)
    | HttpResult.exc => (false, 1)

/-- Success of an HTTP status code in the sense of the specification
wording: a 2xx code.  Stated from the spec for comparison with the
source behaviour (responseOk). -/
def is2xx (code : ℕ) : Bool := 200 ≤ code && code < 300

/-- Settings fields read by the worker task and its collaborators
(src/config/settings.py). -/
structure AppSettings where
  s3_access_key : String := ""
  s3_secret_key : String := ""
  result_dir : String := "/tmp/rmbg-results"
  callback_enabled : Bool := true
  callback_url : String := ""
  callback_auth_token : String := ""
deriving DecidableEq, Repr

/-- The callback_data dictionary the submission route attaches to a job
when the request carries a callback_url (src/api/routes.py lines 94-101). -/
structure CallbackData where
  callback_url : String
  callback_auth : Option String := none
  custom_data : Option String := none
deriving DecidableEq, Repr

/-- Inputs of one execution of the remove_background task, together
with the oracles for its external collaborators: the clock (n-th call
of time.time() returns clock n), the S3 client constructor (which can
re-raise a ClientError, src/utils/s3.py lines 47-69), the model
loading (src/worker/models/bg_removal.py raises on a missing model
file), the model inference (returns a boolean), and the S3 upload
(returns a URL or raises). -/
structure TaskEnv where
  image_path : String
  original_filename : Option String := none
  callback_data : Option CallbackData := none
  creation_time : Option ℚ := none
  clock : ℕ → ℚ
  s3InitExc : Option String := none
  modelInitExc : Option String := none
  modelSuccess : Bool := true
  uploadResult : Except String String := Except.ok ""
  uuid8 : String := "00000000"
  inputFileExists : Bool := true

/-- Observable outcome of one task execution: the ordered writes the
result backend receives, whether the model inference ran, whether the
try block was entered, whether the temporary input file was deleted
and whether it still exists afterwards, and the uncaught Python
exception, if any. -/
structure TaskOutcome where
  writes : List (CeleryState × StoreVal)
  modelRan : Bool
  enteredTry : Bool
  deletedInput : Bool
  inputExistsAfter : Bool
  pythonExc : Option String
deriving DecidableEq, Repr

/-- The except block of the task (src/worker/tasks/remove_bg.py lines
123-150) followed by the finally block (lines 151-163), entered with
the message of the caught exception and the already-computed rounded
processing time up to the failure point.  With callback data present,
the failed-status callback call raises TypeError before update_state,
so the failure meta is never recorded; otherwise update_state records
the failure meta and the re-raise then makes the backend record the
original exception as the final result. -/
def failPath (env : TaskEnv) (queue_time : Option ℚ)
    (prefixWrites : List (CeleryState × StoreVal)) (origMsg : String)
    (err_pt : ℚ) (ranModel : Bool) : TaskOutcome :=
  let error_message := "Error in background removal task: " ++ origMsg
  let failMeta : TaskMeta :=
    { status := some "failed", error := some error_message,
      processing_time := some err_pt, queue_time := queue_time }
  let cbExc : Option String :=
    match env.callback_data with
    | none => none
    | some _ =>
      if kwargsBindOk failedCallKwargs sendCallbackParams then none
      else some typeErrorFailedMsg
  match cbExc with
  | some m =>
    { writes := prefixWrites ++ [(CeleryState.FAILURE, StoreVal.exc m)]
      modelRan := ranModel, enteredTry := true
      deletedInput := env.inputFileExists, inputExistsAfter := false
      pythonExc := some m }
  | none =>
    { writes := prefixWrites ++
        [(CeleryState.FAILURE, StoreVal.dict failMeta),
         (CeleryState.FAILURE, StoreVal.exc origMsg)]
      modelRan := ranModel, enteredTry := true
      deletedInput := env.inputFileExists, inputExistsAfter := false
      pythonExc := some origMsg }

/-- The return of the task body with the finally block: the backend
records SUCCESS with the result dictionary, the temporary input is
removed if it exists. -/
def successOutcome (env : TaskEnv)
    (prefixWrites : List (CeleryState × StoreVal)) (result : TaskMeta) :
    TaskOutcome :=
  { writes := prefixWrites ++ [(CeleryState.SUCCESS, StoreVal.dict result)]
    modelRan := true, enteredTry := true
    deletedInput := env.inputFileExists, inputExistsAfter := false
    pythonExc := none }

/-- The S3-credentials check of the task
(src/worker/tasks/remove_bg.py line 80). -/
def s3Configured (cfg : AppSettings) : Bool :=
  cfg.s3_access_key ≠ "" && cfg.s3_secret_key ≠ ""

/-- The try block of the task (src/worker/tasks/remove_bg.py lines
51-121): output-path generation, model loading and inference, S3
upload or local-path fallback, result construction, and the completed
callback call. -/
def runTryBlock (env : TaskEnv) (cfg : AppSettings) (queue_time : Option ℚ)
    (prefixWrites : List (CeleryState × StoreVal)) : TaskOutcome :=
  let ofn :=
    match env.original_filename with
    | some s => if s = "" then osBasename env.image_path else s
    | none => osBasename env.image_path
  let filename_without_ext := splitextRoot ofn
  let timestamp := pyTrunc (env.clock 1)
  let output_filename :=
    filename_without_ext ++ "_nobg_" ++ toString timestamp ++ "_" ++ env.uuid8 ++ ".png"
  let output_path := osPathJoin cfg.result_dir output_filename
  match env.modelInitExc with
  | some m =>
    failPath env queue_time prefixWrites m (pyRound3 (env.clock 2 - env.clock 0)) false
  | none =>
    let model_time := pyRound3 (env.clock 3 - env.clock 2)
    if env.modelSuccess = false then
      failPath env queue_time prefixWrites "Failed to process image with model"
        (pyRound3 (env.clock 4 - env.clock 0)) true
    else
      let uploadOut : Except String String :=
        if s3Configured cfg then env.uploadResult
        else Except.ok ("file://" ++ output_path)
      match uploadOut with
      | Except.error m =>
        failPath env queue_time prefixWrites m (pyRound3 (env.clock 4 - env.clock 0)) true
      | Except.ok result_url =>
        let total := pyRound3 (env.clock 4 - env.clock 0)
        let result : TaskMeta :=
          { status := some "completed", result_url := some result_url,
            original_filename := some ofn, output_filename := some output_filename,
            processing_time := some total, model_time := some model_time,
            queue_time := queue_time }
        match env.callback_data with
        | some _ =>
          if kwargsBindOk completedCallKwargs sendCallbackParams then
            successOutcome env prefixWrites result
          else
            failPath env queue_time prefixWrites typeErrorCompletedMsg
              (pyRound3 (env.clock 5 - env.clock 0)) true
        | none => successOutcome env prefixWrites result

/-- One execution of the remove_background task
(src/worker/tasks/remove_bg.py).  The backend first records STARTED
because the repository sets task_track_started; the task then creates
the S3 and callback clients (the S3 constructor may raise), records
STARTED with a processing meta via update_state, attempts the
processing callback when callback data is present (whose keyword
arguments do not bind against the send_callback signature), and only
then enters the try/finally block. -/
def runTask (env : TaskEnv) (cfg : AppSettings) : TaskOutcome :=
  let start_time := env.clock 0
  let queue_time : Option ℚ := env.creation_time.map (fun c => pyRound3 (start_time - c))
  let fwStarted : CeleryState × StoreVal := (CeleryState.STARTED, StoreVal.dict {})
  match env.s3InitExc with
  | some m =>
    { writes := [fwStarted, (CeleryState.FAILURE, StoreVal.exc m)]
      modelRan := false, enteredTry := false, deletedInput := false
      inputExistsAfter := env.inputFileExists, pythonExc := some m }
  | none =>
    let w41 : CeleryState × StoreVal :=
      (CeleryState.STARTED, StoreVal.dict { status := some "processing" })
    let processingCbExc : Option String :=
      match env.callback_data with
      | none => none
      | some _ =>
        if kwargsBindOk processingCallKwargs sendCallbackParams then none
        else some typeErrorProcessingMsg
    match processingCbExc with
    | some m =>
      { writes := [fwStarted, w41, (CeleryState.FAILURE, StoreVal.exc m)]
        modelRan := false, enteredTry := false, deletedInput := false
        inputExistsAfter := env.inputFileExists, pythonExc := some m }
    | none => runTryBlock env cfg queue_time [fwStarted, w41]

/-- Mapping from Celery states to the response status enum
(src/api/routes.py lines 147-155). -/
def statusOfCelery : CeleryState → JobStatus
  | CeleryState.PENDING => JobStatus.pending
  | CeleryState.STARTED => JobStatus.processing
  | CeleryState.SUCCESS => JobStatus.completed
  | CeleryState.FAILURE => JobStatus.failed
  | CeleryState.REVOKED => JobStatus.failed

/-- The record the backend holds once the task has finished: the last
write wins. -/
def finalRecord (o : TaskOutcome) : Option (CeleryState × StoreVal) := o.writes.getLast?

/-- Final job status, through the status mapping of the route. -/
def finalTaskStatus (o : TaskOutcome) : Option JobStatus :=
  (finalRecord o).map (fun w => statusOfCelery w.1)

/-- queue_time of the final record when it is a result dictionary. -/
def completedQueueTime (o : TaskOutcome) : Option ℚ :=
  match finalRecord o with
  | some (_, StoreVal.dict m) => m.queue_time
  | _ => none

/-- Collapse consecutive repetitions in a status history. -/
def dedupConsec : List JobStatus → List JobStatus
  | [] => []
  | [a] => [a]
  | a :: b :: rest =>
    if a = b then dedupConsec (b :: rest) else a :: dedupConsec (b :: rest)

/-- Status history of a job: pending at submission (the backend default
before any write), then the status of each backend write, in order. -/
def jobStatusHistory (env : TaskEnv) (cfg : AppSettings) : List JobStatus :=
  JobStatus.pending :: (runTask env cfg).writes.map (fun w => statusOfCelery w.1)

/-- Response model of the status route (src/api/schemas.py,
TaskStatusResponse); an absent optional field is none. -/
structure StatusResponse where
  task_id : String
  status : JobStatus
  result_url : Option String := none
  error : Option String := none
  processing_time : Option ℚ := none
  model_time : Option ℚ := none
  queue_time : Option ℚ := none
deriving DecidableEq, Repr

/-- Python truthiness of a backend result value: a dictionary is truthy
iff it is non-empty, an exception instance is always truthy. -/
def storeValTruthy : StoreVal → Bool
  | StoreVal.dict m =>
    m.status.isSome || m.result_url.isSome || m.original_filename.isSome ||
      m.output_filename.isSome || m.processing_time.isSome || m.model_time.isSome ||
      m.queue_time.isSome || m.error.isSome
  | StoreVal.exc _ => true

/-- The status route get_task_status (src/api/routes.py lines 127-195).
The result backend is modelled at its interface as a partial map from
task id to the recorded state and result; a job id the backend holds
nothing for yields no state, which the route answers with 404. -/
def getTaskStatus (store : String → Option (CeleryState × StoreVal))
    (task_id : String) : Except ℕ StatusResponse :=
  match store task_id with
  | none => Except.error 404
  | some (st, val) =>
    let status := statusOfCelery st
    let r0 : StatusResponse := { task_id := task_id, status := status }
    let r1 :=
      if status = JobStatus.completed && storeValTruthy val then
        match val with
        | StoreVal.dict m =>
          { r0 with result_url := m.result_url, processing_time := m.processing_time,
                    model_time := m.model_time, queue_time := m.queue_time }
        | StoreVal.exc _ => r0
      else r0
    let r2 :=
      if status = JobStatus.failed then
        if storeValTruthy val then
          match val with
          | StoreVal.exc msg => { r1 with error := some msg }
          | StoreVal.dict m =>
            { r1 with error := m.error, processing_time := m.processing_time,
                      model_time := m.model_time, queue_time := m.queue_time }
        else { r1 with error := some "Unknown error" }
      else r1
    Except.ok r2

/-- A worker process spawned by run_local.py: the queue it was bound to
with the -Q option (none means the Celery default queue) and the CUDA
device index exported to it, if any. -/
structure WorkerProc where
  queue : Option String
  cuda_device : Option ℕ
deriving DecidableEq, Repr

/-- start_worker (src/run_local.py lines 40-56): with a GPU index the
worker is bound to the gpu queue and the device index is exported;
without one, no queue option is passed and no device is bound. -/
def start_worker (gpu_index : Option ℕ) : WorkerProc :=
  { queue := if gpu_index.isSome then some "gpu" else none
    cuda_device := gpu_index }

/-- start_all (src/run_local.py lines 58-69): one worker per detected
GPU with its index, or a single worker with no binding when none are
detected. -/
def start_all_workers (gpu_count : ℕ) : List WorkerProc :=
  if 0 < gpu_count then (List.range gpu_count).map (fun i => start_worker (some i))
  else [start_worker none]

/-- The queue the submission route enqueues every job to
(src/api/routes.py line 107). -/
def apiSubmitQueue : String := "gpu"

/-- Name of the default Celery queue, consumed by a worker started
without a -Q option. -/
def celeryDefaultQueue : String := "celery"

/-- The queue a spawned worker actually consumes. -/
def consumedQueue (w : WorkerProc) : String := w.queue.getD celeryDefaultQueue

/-- GPU assignment of BackgroundRemovalModel.__init__
(src/worker/models/bg_removal.py line 54): round robin over the
detected device count. -/
def assignedGpuId (worker_id num_gpus : ℕ) : ℕ := worker_id % num_gpus

/-- Default deployment settings (src/config/settings.py defaults): no
S3 credentials, callbacks enabled but no deployment-level URL. -/
def cfgLocal : AppSettings := {}

/-- A settings value with the callback configuration replaced and
everything else kept. -/
def cfgWithCallbacks (cfg : AppSettings) (e : Bool) (u t : String) : AppSettings :=
  { cfg with callback_enabled := e, callback_url := u, callback_auth_token := t }

/-- A job submitted with a callback specification whose execution would
succeed: the model reports success and the S3 upload returns a URL. -/
def envC2 : TaskEnv :=
  { image_path := "/tmp/rmbg-uploads/upload_1_c2aa.png"
    original_filename := some "img.png"
    callback_data := some { callback_url := "http://cb.example/hook" }
    creation_time := some 0
    clock := fun n => (n : ℚ)
    modelSuccess := true
    uploadResult := Except.ok "https://rmbg-results.s3.us-east-1.amazonaws.com/results/img.png"
    uuid8 := "deadbeef"
    inputFileExists := true }

/-- Settings with S3 configured and a callback endpoint configured. -/
def cfgC2 : AppSettings :=
  { s3_access_key := "AK", s3_secret_key := "SK", result_dir := "/tmp/rmbg-results"
    callback_enabled := true, callback_url := "http://cb.example/hook"
    callback_auth_token := "" }

/-- A job submitted with a callback specification whose temporary input
file exists when the task runs. -/
def envC3 : TaskEnv :=
  { image_path := "/tmp/rmbg-uploads/upload_1_c3aa.png"
    original_filename := some "img.png"
    callback_data := some { callback_url := "http://cb.example/hook" }
    creation_time := some 0
    clock := fun n => (n : ℚ)
    modelSuccess := true
    uuid8 := "deadbeef"
    inputFileExists := true }

/-- A job without callback data whose model inference step fails. -/
def envC6 : TaskEnv :=
  { image_path := "/tmp/rmbg-uploads/upload_1_c6aa.png"
    original_filename := some "img.png"
    callback_data := none
    creation_time := some 0
    clock := fun n => (n : ℚ)
    modelSuccess := false
    uuid8 := "deadbeef"
    inputFileExists := true }

/-- Backend contents after running the envC6 job under the local
settings, for the job id task-c6. -/
def storeC6 : String → Option (CeleryState × StoreVal) :=
  fun id => if id = "task-c6" then finalRecord (runTask envC6 cfgLocal) else none

/-- A job whose submission timestamp lies ahead of the worker clock
(clock skew): every worker-side clock reading returns 1 while the
submitting process recorded 2. -/
def envC7neg : TaskEnv :=
  { image_path := "/tmp/rmbg-uploads/upload_1_c7aa.png"
    original_filename := some "img.png"
    callback_data := none
    creation_time := some 2
    clock := fun _ => 1
    modelSuccess := true
    uuid8 := "deadbeef"
    inputFileExists := true }

/-- A well-behaved job: submitted at time 0 and processed on a clock
that reads n at its n-th call. -/
def envC7w : TaskEnv :=
  { image_path := "/tmp/rmbg-uploads/upload_1_c7bb.png"
    original_filename := some "img.png"
    callback_data := none
    creation_time := some 0
    clock := fun n => (n : ℚ)
    modelSuccess := true
    uuid8 := "deadbeef"
    inputFileExists := true }

/-- A job submitted with a full callback specification. -/
def envC10 : TaskEnv :=
  { image_path := "/tmp/rmbg-uploads/upload_1_c10a.png"
    original_filename := some "img.png"
    callback_data := some
      { callback_url := "http://cb.example/hook"
        callback_auth := some "token123"
        custom_data := some "user42" }
    creation_time := some 0
    clock := fun n => (n : ℚ)
    modelSuccess := true
    uuid8 := "deadbeef"
    inputFileExists := true }
theorem pyRoundInt_nonneg {q : ℚ} (h : 0 ≤ q) : 0 ≤ pyRoundInt q := by
  have hf : (0 : ℤ) ≤ ⌊q⌋ := Int.floor_nonneg.mpr h
  unfold pyRoundInt
  dsimp only
  split_ifs <;> omega

theorem pyRound3_nonneg {q : ℚ} (h : 0 ≤ q) : 0 ≤ pyRound3 q := by
  have h1 : (0 : ℚ) ≤ 1000 * q := by positivity
  have h2 : (0 : ℤ) ≤ pyRoundInt (1000 * q) := pyRoundInt_nonneg h1
  have h3 : (0 : ℚ) ≤ (pyRoundInt (1000 * q) : ℚ) := by exact_mod_cast h2
  unfold pyRound3
  positivity

theorem processingCall_binding_fails :
    kwargsBindOk processingCallKwargs sendCallbackParams = false := by rfl

theorem completedCall_binding_fails :
    kwargsBindOk completedCallKwargs sendCallbackParams = false := by rfl

theorem failedCall_binding_fails :
    kwargsBindOk failedCallKwargs sendCallbackParams = false := by rfl

theorem start_all_workers_gpu (d i : ℕ) (hd : 0 < d) (hi : i < d) :
    (start_all_workers d).length = d ∧
      (start_all_workers d)[i]? = some (start_worker (some (assignedGpuId i d))) := by
  unfold start_all_workers assignedGpuId
  rw [if_pos hd]
  refine ⟨by simp, ?_⟩
  rw [List.getElem?_map, List.getElem?_range hi, Nat.mod_eq_of_lt hi]
  rfl

theorem pyRoundInt_intCast (m : ℤ) : pyRoundInt (m : ℚ) = m := by
  unfold pyRoundInt
  norm_num [Int.floor_intCast]

theorem pyRound3_intCast (m : ℤ) : pyRound3 (m : ℚ) = m := by
  unfold pyRound3
  have h : (1000 : ℚ) * m = ((1000 * m : ℤ) : ℚ) := by push_cast; ring
  rw [h, pyRoundInt_intCast]
  push_cast
  field_simp

/-- Claim C1: for every submitted job, the status transitions strictly
follow pending, then processing, then exactly one of completed or
failed: the processing transition is recorded before execution, no job
leaves pending without passing through processing, and nothing is
written after the terminal state.  Stated over every environment and
settings value: the collapsed status history of the backend writes is
exactly one of the two admissible sequences. -/
theorem c1_status_transitions (env : TaskEnv) (cfg : AppSettings) :
    dedupConsec (jobStatusHistory env cfg) =
        [JobStatus.pending, JobStatus.processing, JobStatus.completed] ∨
      dedupConsec (jobStatusHistory env cfg) =
        [JobStatus.pending, JobStatus.processing, JobStatus.failed] := by
  obtain ⟨ip, ofn, cbd, ct, clk, s3e, mie, ms, ur, u8, ife⟩ := env
  cases s3e with
  | some m => exact Or.inr rfl
  | none =>
    cases cbd with
    | some cd => exact Or.inr rfl
    | none =>
      cases mie with
      | some m => exact Or.inr rfl
      | none =>
        cases ms with
        | false => exact Or.inr rfl
        | true =>
          cases h3 : s3Configured cfg with
          | false =>
            simp [jobStatusHistory, runTask, runTryBlock, failPath, successOutcome,
              dedupConsec, statusOfCelery, h3]
          | true =>
            cases ur with
            | error m =>
              simp [jobStatusHistory, runTask, runTryBlock, failPath, successOutcome,
                dedupConsec, statusOfCelery, h3]
            | ok url =>
              simp [jobStatusHistory, runTask, runTryBlock, failPath, successOutcome,
                dedupConsec, statusOfCelery, h3]

/-- Claim C2: the claim says a job with a callback specification whose
endpoint answers 500 still completes.  The code falsifies this before
any HTTP request is made: forwarding the callback_data keys to
send_callback raises TypeError, so this concrete job with a callback
specification and a successful execution oracle ends failed, and the
endpoint behaviour never comes into play. -/
theorem c2_callback_job_never_completes :
    envC2.modelSuccess = true ∧ envC2.callback_data.isSome = true ∧
    finalTaskStatus (runTask envC2 cfgC2) = some JobStatus.failed ∧
    (runTask envC2 cfgC2).pythonExc = some typeErrorProcessingMsg :=
  ⟨rfl, rfl, rfl, rfl⟩

/-- Claim C3: the claim says the temporary input file is deleted on
every exit path.  For this concrete job with a callback specification
the TypeError of the processing callback call is raised before the
try/finally block, so the cleanup never runs and the input file still
exists after the job reaches its terminal state. -/
theorem c3_cleanup_skipped_with_callback :
    envC3.inputFileExists = true ∧
    finalTaskStatus (runTask envC3 cfgLocal) = some JobStatus.failed ∧
    (runTask envC3 cfgLocal).deletedInput = false ∧
    (runTask envC3 cfgLocal).inputExistsAfter = true :=
  ⟨rfl, rfl, rfl, rfl⟩

/-- Claim C4: for the same job input, running with the callback
configuration disabled entirely yields exactly the same task outcome
(backend writes, hence final status and all timing values, and the file
effects) as running with any callback configuration: the task never
reads the callback settings, because every send_callback call site
raises TypeError at argument binding before the client body could
consult them, and its boolean result is ignored anyway. -/
theorem c4_callback_settings_noninterference (env : TaskEnv) (cfg : AppSettings)
    (e : Bool) (u t : String) :
    runTask env (cfgWithCallbacks cfg false "" "") =
      runTask env (cfgWithCallbacks cfg e u t) := rfl

/-- Claim C5: a status query for a job id the backend holds nothing for
answers 404. -/
theorem c5_unknown_task_404 (store : String → Option (CeleryState × StoreVal))
    (task_id : String) (h : store task_id = none) :
    getTaskStatus store task_id = Except.error 404 := by
  unfold getTaskStatus
  rw [h]

/-- Witness for C5: the empty backend answers 404 for a concrete id. -/
theorem c5_unknown_task_404_witness :
    getTaskStatus (fun _ => none) "no-such-task" = Except.error 404 :=
  c5_unknown_task_404 (fun _ => none) "no-such-task" rfl

/-- Claim C6: the claim says a failed job is queryable with a non-empty
error, processing_time at least zero and a populated queue_time.  For
this concrete failing job (model inference fails, no callback data,
creation timestamp present) the status query returns failed with the
error message, but processing_time, model_time and queue_time are all
absent: the re-raise makes the backend record the exception as the
final result, superseding the meta written by update_state. -/
theorem c6_failed_job_lacks_timings :
    envC6.creation_time = some 0 ∧
    getTaskStatus storeC6 "task-c6" =
      Except.ok
        { task_id := "task-c6", status := JobStatus.failed,
          error := some "Failed to process image with model" } :=
  ⟨rfl, rfl⟩

/-- Claim C7 (amended): for every job whose final backend record is a
result dictionary carrying a queue_time, that queue_time equals the
processing-start clock reading minus the submission timestamp, rounded
to three decimals, and it is nonnegative whenever the processing-start
reading is at least the submission timestamp.  Without that clock
hypothesis the sign is unconstrained, as the counterexample shows. -/
theorem c7_queue_time_characterization (env : TaskEnv) (cfg : AppSettings) (q c : ℚ)
    (hq : completedQueueTime (runTask env cfg) = some q)
    (hc : env.creation_time = some c) :
    q = pyRound3 (env.clock 0 - c) ∧ (c ≤ env.clock 0 → 0 ≤ q) := by
  obtain ⟨ip, ofn, cbd, ct, clk, s3e, mie, ms, ur, u8, ife⟩ := env
  simp only at hq hc
  subst hc
  cases s3e with
  | some m => simp [completedQueueTime, runTask, finalRecord] at hq
  | none =>
    cases cbd with
    | some cd =>
      simp [completedQueueTime, runTask, finalRecord, processingCall_binding_fails] at hq
    | none =>
      cases mie with
      | some m =>
        simp [completedQueueTime, runTask, runTryBlock, failPath, finalRecord] at hq
      | none =>
        cases ms with
        | false =>
          simp [completedQueueTime, runTask, runTryBlock, failPath, finalRecord] at hq
        | true =>
          cases h3 : s3Configured cfg with
          | false =>
            simp [completedQueueTime, runTask, runTryBlock, failPath, successOutcome,
              finalRecord, h3] at hq
            subst hq
            exact ⟨rfl, fun h => pyRound3_nonneg (sub_nonneg.mpr h)⟩
          | true =>
            cases ur with
            | error m =>
              simp [completedQueueTime, runTask, runTryBlock, failPath, finalRecord, h3] at hq
            | ok url =>
              simp [completedQueueTime, runTask, runTryBlock, failPath, successOutcome,
                finalRecord, h3] at hq
              subst hq
              exact ⟨rfl, fun h => pyRound3_nonneg (sub_nonneg.mpr h)⟩

/-- Counterexample for C7 as stated: a job submitted at timestamp 2
and processed by a worker whose clock reads 1 reaches completed, and
its recorded queue_time is negative; the code has no guard against
clock skew between the submitting process and the worker. -/
theorem c7_negative_queue_time_cex :
    envC7neg.creation_time = some 2 ∧
    finalTaskStatus (runTask envC7neg cfgLocal) = some JobStatus.completed ∧
    completedQueueTime (runTask envC7neg cfgLocal) = some (pyRound3 (1 - 2)) ∧
    pyRound3 (1 - 2) < 0 := by
  refine ⟨rfl, rfl, rfl, ?_⟩
  have h : ((1 : ℚ) - 2) = ((-1 : ℤ) : ℚ) := by norm_num
  rw [h, pyRound3_intCast]
  norm_num

/-- Witness for C7: a well-behaved job submitted at 0 and started at
clock reading 0 has queue_time equal to the rounded difference and the
nonnegativity implication holds. -/
theorem c7_queue_time_characterization_witness :
    pyRound3 (envC7w.clock 0 - 0) = pyRound3 (envC7w.clock 0 - 0) ∧
      ((0 : ℚ) ≤ envC7w.clock 0 → 0 ≤ pyRound3 (envC7w.clock 0 - 0)) :=
  c7_queue_time_characterization envC7w cfgLocal (pyRound3 (envC7w.clock 0 - 0)) 0 rfl rfl

/-- Claim C8: the claim says that with zero detected devices the pool
spawns one unbound worker consuming the same queue the API enqueues
to.  The code spawns exactly one worker with no device binding, but
without a queue option it consumes the Celery default queue, while the
submission route enqueues every job to the gpu queue, so the queues
differ. -/
theorem c8_cpu_worker_queue_mismatch :
    start_all_workers 0 = [{ queue := none, cuda_device := none }] ∧
    consumedQueue { queue := none, cuda_device := none } = celeryDefaultQueue ∧
    apiSubmitQueue = "gpu" ∧
    consumedQueue { queue := none, cuda_device := none } ≠ apiSubmitQueue := by
  refine ⟨rfl, rfl, rfl, ?_⟩
  decide

/-- Claim C9 (amended): send_callback attempts no HTTP POST and
returns false exactly when callbacks are disabled or no deployment
target URL is configured; otherwise it attempts exactly one POST, and
its return value is true exactly when a response arrived whose status
code is below 400 (the requests ok predicate), false on a request
exception.  There is at most one POST per call, hence no retry. -/
theorem c9_send_callback_characterization (enabled : Bool) (url tok : String)
    (net : HttpResult) :
    ((send_callback ⟨enabled, url, tok⟩ net).2 = 0 ↔ (enabled = false ∨ url = "")) ∧
    (send_callback ⟨enabled, url, tok⟩ net).2 ≤ 1 ∧
    ((send_callback ⟨enabled, url, tok⟩ net).1 = true ↔
      (enabled = true ∧ url ≠ "" ∧ ∃ c, net = HttpResult.resp c ∧ c < 400)) := by
  cases enabled <;> cases net <;> by_cases hu : url = "" <;>
    simp [send_callback, responseOk, hu]

/-- Counterexample for C9 as stated: a 304 response is not a 2xx
status, yet send_callback returns true for it, because the requests ok
predicate accepts every status below 400. -/
theorem c9_ok_not_2xx_cex :
    send_callback { enabled := true, callback_url := "http://cb.example/hook", auth_token := "" }
        (HttpResult.resp 304) = (true, 1) ∧
      is2xx 304 = false :=
  ⟨rfl, rfl⟩

/-- Claim C10: for every job carrying a callback specification (and
whose S3 client construction does not itself raise), the processing
callback call passes keyword arguments the send_callback signature
does not accept, so the task raises TypeError before the model runs
and before the try/finally block is entered; the job terminates failed
and the temporary input file is not deleted. -/
theorem c10_processing_callback_type_error (env : TaskEnv) (cfg : AppSettings)
    (hcb : env.callback_data.isSome = true) (hs3 : env.s3InitExc = none) :
    kwargsBindOk processingCallKwargs sendCallbackParams = false ∧
    (runTask env cfg).pythonExc = some typeErrorProcessingMsg ∧
    (runTask env cfg).modelRan = false ∧
    (runTask env cfg).enteredTry = false ∧
    finalTaskStatus (runTask env cfg) = some JobStatus.failed ∧
    (runTask env cfg).deletedInput = false ∧
    (runTask env cfg).inputExistsAfter = env.inputFileExists := by
  obtain ⟨ip, ofn, cbd, ct, clk, s3e, mie, ms, ur, u8, ife⟩ := env
  simp only at hcb hs3
  subst hs3
  cases cbd with
  | none => simp at hcb
  | some cd => exact ⟨rfl, rfl, rfl, rfl, rfl, rfl, rfl⟩

/-- Witness for C10: the concrete callback-carrying job under the
S3-and-callback-configured settings exhibits every conjunct. -/
theorem c10_processing_callback_type_error_witness :
    kwargsBindOk processingCallKwargs sendCallbackParams = false ∧
    (runTask envC10 cfgC2).pythonExc = some typeErrorProcessingMsg ∧
    (runTask envC10 cfgC2).modelRan = false ∧
    (runTask envC10 cfgC2).enteredTry = false ∧
    finalTaskStatus (runTask envC10 cfgC2) = some JobStatus.failed ∧
    (runTask envC10 cfgC2).deletedInput = false ∧
    (runTask envC10 cfgC2).inputExistsAfter = envC10.inputFileExists :=
  c10_processing_callback_type_error envC10 cfgC2 rfl rfl
